import Mathlib

/-!
Shallow embedding of the DRD invoice application.

Source of truth:
  * `src/app.py`    — the `calculate_invoice` totals helper (lines 45-81), the
    `new_invoice` / `edit_invoice` / `delete_invoice` request handlers and the
    form-field coercion of line-item amounts (lines 176 and 335);
  * `src/models.py` — `Invoice.generate_invoice_no` (lines 47-57) and the
    three-table data model.

Machine numbers are modelled as exact rationals (`ℚ`); Python operations that
can raise (`float(None)`, `None / 100`, list indexing) are modelled by
`Option`-valued functions, `none` standing for a raised exception.  The
persistence layer itself (SQLAlchemy) is out of scope per the specification;
the record store is modelled as in-memory lists of rows.
-/

attribute [local semireducible] Rat.add Rat.mul Rat.sub Rat.inv Rat.ofScientific

/-- Floor of a rational, written so that it evaluates in the kernel
(`Int.fdiv` is floored integer division and `den` is positive). -/
def ratFloor (q : ℚ) : ℤ := q.num.fdiv q.den

/-- Ceiling of a rational, via `ratCeil q = -⌊-q⌋`; evaluates in the kernel.
Models Python's `math.ceil` on the exact value (app.py line 80). -/
def ratCeil (q : ℚ) : ℤ := -(ratFloor (-q))

/-- Models Python's `round(x, 2)` (app.py lines 72-76).  The source rounds a
binary double; an exact two-decimal tie (an odd multiple of 1/200) is never
representable as a double, so the source's behaviour at an exact-rational tie
is decided by the direction of the floating-point error of the preceding
arithmetic.  For the computation the specification exercises
(`350.5 * (5/100)`, whose double value lies just above `17.525`) the error is
upward, so ties round up here; away from ties the two semantics agree. -/
def pyRound2 (q : ℚ) : ℚ := ((ratFloor (q * 100 + 1/2) : ℤ) : ℚ) / 100

/-- Models Python's `round(x)` to an integer (app.py line 67), which rounds
half to even.  It is applied to `gst_rate / 2` where `gst_rate` is an integer
column, so exact `.5` ties do occur and are exactly representable as doubles;
banker's rounding is therefore the faithful semantics here. -/
def pyRoundHalfEven (q : ℚ) : ℤ :=
  if q - ((ratFloor q : ℤ) : ℚ) < 1/2 then ratFloor q
  else if ((ratFloor q : ℤ) : ℚ) + 1/2 < q then ratFloor q + 1
  else if ratFloor q % 2 = 0 then ratFloor q else ratFloor q + 1

/-- The fields of an `Invoice` row read by `calculate_invoice` (models.py
lines 34-38).  `fuel_percentage` and `gst_rate` are nullable integer columns,
`additional_charges` a nullable float column, `gst_type` a nullable text
column; `none` models SQL NULL / Python `None`. -/
structure PyInvoice where
  fuel_percentage : Option ℤ
  gst_type : Option String
  gst_rate : Option ℤ
  additional_charges : Option ℚ
deriving DecidableEq

/-- The intermediate values of `calculate_invoice` (app.py lines 46-69),
before the display rounding of the returned dict. -/
structure RawTotals where
  subtotal : ℚ
  fuel_charge : ℚ
  tax_base : ℚ
  igst : ℚ
  cgst : ℚ
  sgst : ℚ
  igst_rate : ℤ
  cgst_rate : ℤ
  sgst_rate : ℤ
  bill_amount : ℚ
deriving DecidableEq

/-- The dict returned by `calculate_invoice` (app.py lines 71-81): money
fields rounded to 2 decimals, `bill_amount` the ceiling as a whole integer. -/
structure InvoiceTotals where
  subtotal : ℚ
  fuel_charge : ℚ
  igst : ℚ
  cgst : ℚ
  sgst : ℚ
  igst_rate : ℤ
  cgst_rate : ℤ
  sgst_rate : ℤ
  bill_amount : ℤ
deriving DecidableEq

/-- Models `sum(float(item.amount) for item in items)` (app.py line 46).
`item.amount` is a nullable float column; `float(None)` raises `TypeError`,
modelled by `none`. -/
def sumFloats : List (Option ℚ) → Option ℚ
  | [] => some 0
  | none :: _ => none
  | some x :: rest =>
    match sumFloats rest with
    | some s => some (x + s)
    | none => none

/-- The computation of `calculate_invoice` up to the unrounded bill amount
(app.py lines 46-69).  `inv.fuel_percentage / 100` raises `TypeError` when the
column is NULL (there is no `or 0` guard on line 47, unlike lines 49 and 51),
modelled by `none`; `additional_charges or 0` and `gst_rate or 0` default NULL
to zero.  The regime dispatch on lines 54-67 recognises `"IGST"` and `"NA"`
and treats every other value (including NULL) as the CGST + SGST split. -/
def calcRaw (amounts : List (Option ℚ)) (inv : PyInvoice) : Option RawTotals :=
  match sumFloats amounts, inv.fuel_percentage with
  | some subtotal, some fp =>
    let fuel_charge := subtotal * ((fp : ℚ) / 100)
    let additional_charges := inv.additional_charges.getD 0
    let tax_base := subtotal + fuel_charge + additional_charges
    let gst_rate : ℤ := inv.gst_rate.getD 0
    if inv.gst_type = some "IGST" then
      let igst := tax_base * ((gst_rate : ℚ) / 100)
      some { subtotal := subtotal, fuel_charge := fuel_charge, tax_base := tax_base,
             igst := igst, cgst := 0, sgst := 0,
             igst_rate := gst_rate, cgst_rate := 0, sgst_rate := 0,
             bill_amount := tax_base + igst + 0 + 0 }
    else if inv.gst_type = some "NA" then
      some { subtotal := subtotal, fuel_charge := fuel_charge, tax_base := tax_base,
             igst := 0, cgst := 0, sgst := 0,
             igst_rate := 0, cgst_rate := 0, sgst_rate := 0,
             bill_amount := tax_base + 0 + 0 + 0 }
    else
      let cgst := tax_base * (((gst_rate : ℚ) / 2) / 100)
      let sgst := tax_base * (((gst_rate : ℚ) / 2) / 100)
      let hr := pyRoundHalfEven ((gst_rate : ℚ) / 2)
      some { subtotal := subtotal, fuel_charge := fuel_charge, tax_base := tax_base,
             igst := 0, cgst := cgst, sgst := sgst,
             igst_rate := 0, cgst_rate := hr, sgst_rate := hr,
             bill_amount := tax_base + 0 + cgst + sgst }
  | _, _ => none

/-- `calculate_invoice(items, inv)` (app.py lines 45-81): the raw computation
followed by the display rounding of the returned dict, with the ceiling
applied once to the unrounded bill amount (line 80). -/
def calculate_invoice (amounts : List (Option ℚ)) (inv : PyInvoice) :
    Option InvoiceTotals :=
  (calcRaw amounts inv).map fun r =>
    { subtotal := pyRound2 r.subtotal
      fuel_charge := pyRound2 r.fuel_charge
      igst := pyRound2 r.igst
      cgst := pyRound2 r.cgst
      sgst := pyRound2 r.sgst
      igst_rate := r.igst_rate
      sgst_rate := r.sgst_rate
      cgst_rate := r.cgst_rate
      bill_amount := ratCeil r.bill_amount }

/-- Value of an ASCII digit string, most significant digit first. -/
def digitsVal (l : List Char) : ℕ :=
  l.foldl (fun a c => a * 10 + (c.toNat - 48)) 0

/-- Models Python's `s.replace('.', '', 1)`: remove the first occurrence of a
character. -/
def dropFirst (c : Char) : List Char → List Char
  | [] => []
  | x :: xs => if x = c then xs else x :: dropFirst c xs

/-- Models Python's `str.isdigit` for ASCII input: nonempty and all digits
(non-ASCII digit characters, which Python also accepts, do not occur in the
forms at issue). -/
def isDigitStr (l : List Char) : Bool :=
  !l.isEmpty && l.all (fun c => c.isDigit)

/-- Value of `float(s)` for a string of digits containing at most one dot
(the only shape on which the source applies it). -/
def pyFloatLit (l : List Char) : ℚ :=
  let ip := l.takeWhile (fun c => c ≠ '.')
  let fp := (l.dropWhile (fun c => c ≠ '.')).drop 1
  (digitsVal ip : ℚ) + (digitsVal fp : ℚ) / (10 : ℚ) ^ fp.length

/-- The coercion applied to a submitted line-item amount on invoice create and
edit (app.py lines 176 and 335):
`float(a) if a.replace('.', '', 1).isdigit() else 0.0`. -/
def parse_item_amount (s : String) : ℚ :=
  if isDigitStr (dropFirst '.' s.data) then pyFloatLit s.data else 0

/-- The two columns of an invoice row read by `Invoice.generate_invoice_no`
(models.py lines 26-27).  `invoice_no` is declared NOT NULL, so the Python
falsiness test `not last.invoice_no` is the empty-string test. -/
structure InvoiceRow where
  id : ℕ
  invoice_no : String
deriving DecidableEq

/-- Models `Invoice.query.order_by(Invoice.id.desc()).first()` (models.py
line 49): the row with the greatest primary key, `none` on an empty table. -/
def lastRow (rows : List InvoiceRow) : Option InvoiceRow :=
  rows.foldl
    (fun acc r =>
      match acc with
      | none => some r
      | some a => if a.id < r.id then some r else some a)
    none

/-- Models `s.split('-')[-1]`: the piece after the last dash (the whole string
when there is no dash). -/
def lastDashPiece (l : List Char) : List Char :=
  (l.reverse.takeWhile (fun c => c ≠ '-')).reverse

/-- Models `int(s)` applied to a piece of a `split('-')` result: surrounding
whitespace is tolerated, a nonempty digit string parses, anything else raises
`ValueError`, modelled by `none`.  (A sign character cannot occur in a piece
produced by splitting on `'-'`.) -/
def pyIntDigits? (l : List Char) : Option ℕ :=
  let t := ((l.dropWhile Char.isWhitespace).reverse.dropWhile
    Char.isWhitespace).reverse
  if isDigitStr t then some (digitsVal t) else none

/-- Models the Python format `f"{n:04d}"` for a natural number: the decimal
digits, left-padded with zeros to at least four characters. -/
def zeroPad4 (n : ℕ) : String :=
  let ds := Nat.toDigits 10 n
  String.mk (List.replicate (4 - ds.length) '0' ++ ds)

/-- `Invoice.generate_invoice_no` (models.py lines 47-57): read the row with
the greatest id; if there is none, or its number is falsy, return
`"INV-0001"`; otherwise parse the part after the last dash as an integer and
increment it, falling back to `id + 1` when the parse raises. -/
def generate_invoice_no (rows : List InvoiceRow) : String :=
  match lastRow rows with
  | none => "INV-0001"
  | some l =>
    if l.invoice_no = "" then "INV-0001"
    else
      match pyIntDigits? (lastDashPiece l.invoice_no.data) with
      | some n => "INV-" ++ zeroPad4 (n + 1)
      | none => "INV-" ++ zeroPad4 (l.id + 1)

/-- Nine invoices numbered `INV-0001` .. `INV-0009`, created in that order
(so the record ids follow the numbers). -/
def seqRows : List InvoiceRow :=
  [⟨1, "INV-0001"⟩, ⟨2, "INV-0002"⟩, ⟨3, "INV-0003"⟩, ⟨4, "INV-0004"⟩,
   ⟨5, "INV-0005"⟩, ⟨6, "INV-0006"⟩, ⟨7, "INV-0007"⟩, ⟨8, "INV-0008"⟩,
   ⟨9, "INV-0009"⟩]

/-- A customers-table row, the columns the handlers read (models.py 6-18). -/
structure CustomerRow where
  id : ℕ
  name : String
deriving DecidableEq

/-- An invoices-table row as written by the create/edit handlers.  The
handlers store raw form values (`request.form.get` returns a string or
`None`); column-type coercion happens inside the excluded persistence layer,
so the fields are kept as the submitted optional strings. -/
structure InvoiceRec where
  id : ℕ
  invoice_no : Option String
  invoice_date : Option String
  from_date : Option String
  to_date : Option String
  customer_id : ℕ
  fuel_percentage : Option String
  gst_type : Option String
  gst_rate : Option String
  additional_charges : Option String
  remarks : Option String
deriving DecidableEq

/-- An invoice_items-table row (models.py lines 60-68), without its surrogate
key, which no handler reads. -/
structure ItemRow where
  invoice_id : ℕ
  date : String
  awb_no : String
  destination : String
  weight : String
  amount : ℚ
deriving DecidableEq

/-- The backing record store: the three tables of the schema. -/
structure Store where
  customers : List CustomerRow
  invoices : List InvoiceRec
  items : List ItemRow
deriving DecidableEq

/-- The POSTed invoice form: scalar fields from `request.form.get` (string or
absent) and the five parallel `[]`-suffixed item lists from
`request.form.getlist`. -/
structure InvForm where
  customer_name : Option String
  invoice_no : Option String
  invoice_date : Option String
  from_date : Option String
  to_date : Option String
  fuel_percentage : Option String
  gst_type : Option String
  gst_rate : Option String
  additional_charges : Option String
  remarks : Option String
  item_dates : List String
  awb_nos : List String
  destinations : List String
  weights : List String
  amounts : List String
deriving DecidableEq

/-- The observable outcome of a handler: an HTTP client error with status and
body, a 404, or a redirect. -/
inductive HttpResult where
  | clientError (status : ℕ) (body : String)
  | notFound
  | redirect (target : String)
deriving DecidableEq

/-- The item-construction loop shared by `new_invoice` (app.py lines 169-178,
`skipEmpty := false`) and `edit_invoice` (lines 326-337, `skipEmpty := true`:
rows with a falsy date are skipped with `continue` before the other lists are
indexed).  The loop runs over the indices of `item_dates`; indexing a shorter
parallel list raises `IndexError`, modelled by `none`. -/
def buildItems (invId : ℕ) (skipEmpty : Bool) :
    List String → List String → List String → List String → List String →
    Option (List ItemRow)
  | [], _, _, _, _ => some []
  | d :: ds, awbs, dests, ws, amts =>
    if skipEmpty ∧ d = "" then
      buildItems invId skipEmpty ds awbs.tail dests.tail ws.tail amts.tail
    else
      match awbs, dests, ws, amts with
      | a :: arest, de :: derest, w :: wrest, m :: mrest =>
        match buildItems invId skipEmpty ds arest derest wrest mrest with
        | some rest =>
          some ({ invoice_id := invId, date := d, awb_no := a,
                  destination := de, weight := w,
                  amount := parse_item_amount m } :: rest)
        | none => none
      | _, _, _, _ => none

/-- Models the autoincrement primary key: the id the database assigns to the
next inserted invoice row. -/
def nextInvoiceId (invs : List InvoiceRec) : ℕ :=
  (invs.map (fun i => i.id)).foldl max 0 + 1

/-- The POST branch of `new_invoice` (app.py lines 139-181): look the customer
up by submitted name (`filter_by(name=...).first()`, a `None` name matches no
row); with no match, return `"Customer not found", 400` before anything is
written; otherwise insert the invoice row and its items and redirect. -/
def new_invoice_post (st : Store) (f : InvForm) : Option (HttpResult × Store) :=
  match st.customers.find? (fun c => f.customer_name == some c.name) with
  | none => some (HttpResult.clientError 400 "Customer not found", st)
  | some cust =>
    let newId := nextInvoiceId st.invoices
    let inv : InvoiceRec :=
      { id := newId, invoice_no := f.invoice_no, invoice_date := f.invoice_date,
        from_date := f.from_date, to_date := f.to_date, customer_id := cust.id,
        fuel_percentage := f.fuel_percentage, gst_type := f.gst_type,
        gst_rate := f.gst_rate, additional_charges := f.additional_charges,
        remarks := f.remarks }
    match buildItems newId false f.item_dates f.awb_nos f.destinations
        f.weights f.amounts with
    | some its =>
      some (HttpResult.redirect "index",
        { st with invoices := st.invoices ++ [inv], items := st.items ++ its })
    | none => none

/-- The POST branch of `edit_invoice` (app.py lines 292-341): 404 when the id
does not exist; otherwise overwrite the scalar fields from the form, change
the customer only when the submitted name matches one (lines 311-314 — an
unmatched name is silently ignored), delete the invoice's old items, rebuild
them from the form (skipping rows with an empty date) and redirect. -/
def edit_invoice_post (st : Store) (invId : ℕ) (f : InvForm) :
    Option (HttpResult × Store) :=
  match st.invoices.find? (fun i => i.id == invId) with
  | none => some (HttpResult.notFound, st)
  | some inv =>
    let cid :=
      match st.customers.find? (fun c => f.customer_name == some c.name) with
      | some c => c.id
      | none => inv.customer_id
    let inv2 : InvoiceRec :=
      { inv with
        invoice_no := f.invoice_no,
        invoice_date := f.invoice_date,
        from_date := f.from_date,
        to_date := f.to_date,
        fuel_percentage := f.fuel_percentage,
        gst_type := f.gst_type,
        gst_rate := f.gst_rate,
        additional_charges := f.additional_charges,
        remarks := f.remarks,
        customer_id := cid }
    match buildItems invId true f.item_dates f.awb_nos f.destinations
        f.weights f.amounts with
    | some its =>
      some (HttpResult.redirect "index",
        { st with
          invoices := st.invoices.map (fun i => if i.id == invId then inv2 else i),
          items := st.items.filter (fun it => !(it.invoice_id == invId)) ++ its })
    | none => none

/-- `delete_invoice` (app.py lines 486-495): 404 when the id does not exist;
otherwise delete the invoice's items, then the invoice, and redirect. -/
def delete_invoice (st : Store) (invId : ℕ) : HttpResult × Store :=
  match st.invoices.find? (fun i => i.id == invId) with
  | none => (HttpResult.notFound, st)
  | some _ =>
    (HttpResult.redirect "index",
      { st with
        invoices := st.invoices.filter (fun i => !(i.id == invId)),
        items := st.items.filter (fun it => !(it.invoice_id == invId)) })

/-- The referential invariant of the schema: every item's `invoice_id` refers
to an existing invoice. -/
def storeInvariant (st : Store) : Prop :=
  ∀ it ∈ st.items, ∃ inv ∈ st.invoices, inv.id = it.invoice_id

/-- The single stored invoice of the concrete edit scenario. -/
def exInvoice : InvoiceRec :=
  { id := 1, invoice_no := some "INV-0001",
    invoice_date := some "2024-01-01", from_date := none, to_date := none,
    customer_id := 1, fuel_percentage := some "5", gst_type := some "IGST",
    gst_rate := some "18", additional_charges := some "20", remarks := none }

/-- A one-customer, one-invoice store used as a concrete edit scenario. -/
def exStore : Store :=
  { customers := [⟨1, "Alice"⟩], invoices := [exInvoice], items := [] }

/-- An edit form whose submitted customer name matches no stored customer. -/
def exEditForm : InvForm :=
  { customer_name := some "Bob", invoice_no := some "INV-0002",
    invoice_date := some "2024-02-02", from_date := none, to_date := none,
    fuel_percentage := some "7", gst_type := some "NA", gst_rate := none,
    additional_charges := none, remarks := none,
    item_dates := [], awb_nos := [], destinations := [], weights := [],
    amounts := [] }

/-- The invoice row after the edit of the concrete scenario: rewritten from
the form but keeping its old customer. -/
def exInvoiceEdited : InvoiceRec :=
  { id := 1, invoice_no := some "INV-0002",
    invoice_date := some "2024-02-02", from_date := none, to_date := none,
    customer_id := 1, fuel_percentage := some "7", gst_type := some "NA",
    gst_rate := none, additional_charges := none, remarks := none }

/-- The store `edit_invoice` produces from `exStore` and `exEditForm`: the
invoice is rewritten from the form but keeps its old customer. -/
def exStoreEdited : Store :=
  { customers := [⟨1, "Alice"⟩], invoices := [exInvoiceEdited], items := [] }

/-- An invoice whose tax regime selector is absent (SQL NULL). -/
def invAbsentType : PyInvoice :=
  { fuel_percentage := some 0, gst_type := none, gst_rate := some 5,
    additional_charges := none }

/-- The raw totals `calcRaw` produces for `[some 100]` and `invAbsentType`. -/
def rSplitAbsent : RawTotals :=
  { subtotal := 100, fuel_charge := 0, tax_base := 100, igst := 0,
    cgst := 5/2, sgst := 5/2, igst_rate := 0, cgst_rate := 2, sgst_rate := 2,
    bill_amount := 105 }

/-- An invoice in the split regime under an explicit unrecognised selector. -/
def invGstSplit : PyInvoice :=
  { fuel_percentage := some 0, gst_type := some "GST", gst_rate := some 5,
    additional_charges := some 0 }

/-- The raw totals `calcRaw` produces for `[some 100]` and `invGstSplit`. -/
def rGstSplit : RawTotals :=
  { subtotal := 100, fuel_charge := 0, tax_base := 100, igst := 0,
    cgst := 5/2, sgst := 5/2, igst_rate := 0, cgst_rate := 2, sgst_rate := 2,
    bill_amount := 105 }

/-- The raw totals `calcRaw` produces for `[some 100]` and `invGstSplit` with
its selector replaced by `"IGST"`. -/
def rGstInter : RawTotals :=
  { subtotal := 100, fuel_charge := 0, tax_base := 100, igst := 5,
    cgst := 0, sgst := 0, igst_rate := 5, cgst_rate := 0, sgst_rate := 0,
    bill_amount := 105 }

/-- The invoice of the specification's worked example. -/
def invExample : PyInvoice :=
  { fuel_percentage := some 5, gst_type := some "IGST", gst_rate := some 18,
    additional_charges := some 20 }

/-- The raw totals `calcRaw` produces for the worked example. -/
def rExample : RawTotals :=
  { subtotal := 701/2, fuel_charge := 701/40, tax_base := 15521/40,
    igst := 139689/2000, cgst := 0, sgst := 0, igst_rate := 18,
    cgst_rate := 0, sgst_rate := 0, bill_amount := 915739/2000 }

/-- An invoice in the not-applicable regime with everything else zero. -/
def invNA : PyInvoice :=
  { fuel_percentage := some 0, gst_type := some "NA", gst_rate := some 0,
    additional_charges := some 0 }

/-- The raw totals `calcRaw` produces for `[some 100]` and `invNA`. -/
def rNA : RawTotals :=
  { subtotal := 100, fuel_charge := 0, tax_base := 100, igst := 0,
    cgst := 0, sgst := 0, igst_rate := 0, cgst_rate := 0, sgst_rate := 0,
    bill_amount := 100 }

/-- A second stored invoice, for the concrete delete scenario. -/
def exInvoice2 : InvoiceRec :=
  { id := 2, invoice_no := some "INV-0002",
    invoice_date := some "2024-01-05", from_date := none, to_date := none,
    customer_id := 1, fuel_percentage := none, gst_type := some "NA",
    gst_rate := none, additional_charges := none, remarks := none }

/-- A two-invoice store with one item per invoice, satisfying the
referential invariant; used as a concrete delete scenario. -/
def exStoreDel : Store :=
  { customers := [⟨1, "Alice"⟩],
    invoices := [exInvoice, exInvoice2],
    items := [⟨1, "2024-01-02", "AWB1", "DEL", "1kg", 100⟩,
              ⟨2, "2024-01-03", "AWB2", "BOM", "2kg", 200⟩] }

theorem ratFloor_eq (q : ℚ) : ratFloor q = ⌊q⌋ := by
  rw [Rat.floor_def, ratFloor, Int.fdiv_eq_ediv]
  omega

theorem ratCeil_eq (q : ℚ) : ratCeil q = ⌈q⌉ := by
  rw [ratCeil, ratFloor_eq, Int.floor_neg, neg_neg]

theorem pyRoundHalfEven_near (q : ℚ) :
    |((pyRoundHalfEven q : ℤ) : ℚ) - q| ≤ 1/2 := by
  have hle : ((ratFloor q : ℤ) : ℚ) ≤ q := by
    rw [ratFloor_eq]; exact Int.floor_le q
  have hlt : q < ((ratFloor q : ℤ) : ℚ) + 1 := by
    rw [ratFloor_eq]; exact Int.lt_floor_add_one q
  unfold pyRoundHalfEven
  split_ifs <;> (rw [abs_le]; push_cast; constructor <;> linarith)

theorem sumFloats_eq_none (amounts : List (Option ℚ)) (h : none ∈ amounts) :
    sumFloats amounts = none := by
  induction amounts with
  | nil => cases h
  | cons a rest ih =>
    rcases List.mem_cons.mp h with h' | h'
    · rw [← h']; rfl
    · cases a with
      | none => rfl
      | some x => rw [sumFloats, ih h']

theorem calcRaw_bill (amounts : List (Option ℚ)) (inv : PyInvoice)
    (r : RawTotals) (h : calcRaw amounts inv = some r) :
    r.bill_amount = r.tax_base + r.igst + r.cgst + r.sgst := by
  unfold calcRaw at h
  split at h
  · split at h <;> [skip; split at h] <;>
      (simp only [Option.some.injEq] at h; subst h; rfl)
  · exact Option.noConfusion h

/-- C1 (counterexample): the claim says an absent fuel surcharge percentage is
treated as zero and the calculation never fails; but on a store with one
100-unit item and an invoice whose `fuel_percentage` column is NULL,
`calculate_invoice` raises a `TypeError` at `inv.fuel_percentage / 100`
(app.py line 47), modelled by the `none` result. -/
theorem calc_absent_fuel_raises :
    calculate_invoice [some 100]
      { fuel_percentage := none, gst_type := some "NA", gst_rate := none,
        additional_charges := none } = none := rfl

/-- C1 (amended): absent additional charges and an absent tax rate are each
treated as zero, and a non-numeric submitted line-item amount is coerced to
zero at item entry; but a line-item amount that is absent (NULL) or an absent
fuel surcharge percentage makes the calculation raise instead of degrading to
zero. -/
theorem calc_defaults_and_failures :
    (∀ (amounts : List (Option ℚ)) (inv : PyInvoice),
      calcRaw amounts { inv with additional_charges := none } =
        calcRaw amounts { inv with additional_charges := some 0 }) ∧
    (∀ (amounts : List (Option ℚ)) (inv : PyInvoice),
      calcRaw amounts { inv with gst_rate := none } =
        calcRaw amounts { inv with gst_rate := some 0 }) ∧
    (∀ s : String, isDigitStr (dropFirst '.' s.data) = false →
      parse_item_amount s = 0) ∧
    (∀ (amounts : List (Option ℚ)) (inv : PyInvoice), none ∈ amounts →
      calculate_invoice amounts inv = none) ∧
    (∀ (amounts : List (Option ℚ)) (inv : PyInvoice),
      inv.fuel_percentage = none → calculate_invoice amounts inv = none) := by
  refine ⟨?_, ?_, ?_, ?_, ?_⟩
  · intro amounts inv; rfl
  · intro amounts inv; rfl
  · intro s h; simp [parse_item_amount, h]
  · intro amounts inv h
    simp [calculate_invoice, calcRaw, sumFloats_eq_none amounts h]
  · intro amounts inv h
    cases hs : sumFloats amounts <;>
      simp [calculate_invoice, calcRaw, hs, h]

/-- C1 (witness): the amended claim instantiated at concrete inputs. -/
theorem calc_defaults_and_failures_witness :
    calcRaw [some 1]
      { fuel_percentage := some 0, gst_type := some "NA", gst_rate := some 0,
        additional_charges := none } =
      calcRaw [some 1]
        { fuel_percentage := some 0, gst_type := some "NA", gst_rate := some 0,
          additional_charges := some 0 } ∧
    parse_item_amount "12x" = 0 ∧
    calculate_invoice [none] invNA = none ∧
    calculate_invoice [some 5]
      { fuel_percentage := none, gst_type := none, gst_rate := none,
        additional_charges := none } = none := by
  refine ⟨?_, ?_, ?_, ?_⟩
  · exact calc_defaults_and_failures.1 [some 1]
      { fuel_percentage := some 0, gst_type := some "NA", gst_rate := some 0,
        additional_charges := some 0 }
  · exact calc_defaults_and_failures.2.2.1 "12x" (by decide)
  · exact calc_defaults_and_failures.2.2.2.1 [none] invNA (by simp)
  · exact calc_defaults_and_failures.2.2.2.2 [some 5]
      { fuel_percentage := none, gst_type := none, gst_rate := none,
        additional_charges := none } rfl

/-- C2 (counterexample): the claim derives the next number from the
highest-numbered invoice; the code reads the invoice with the greatest id
instead (models.py line 49).  On a table holding `INV-0009` (id 1) and
`INV-0005` (id 2), the highest number is 9 so the claim predicts `INV-0010`,
but the code generates `INV-0006` from the most recent row. -/
theorem generate_invoice_no_latest_not_highest :
    generate_invoice_no [⟨1, "INV-0009"⟩, ⟨2, "INV-0005"⟩] = "INV-0006" ∧
    "INV-0006" ≠ "INV-0010" := ⟨by decide, by decide⟩

/-- C2 (amended): when no number is supplied the generated number is `INV-`
followed by the numeric suffix of the most recently created (greatest-id)
invoice plus one, zero-padded to 4 digits; given `INV-0001`..`INV-0009`
created in that order the next is `INV-0010`, and with no invoices it is
`INV-0001`. -/
theorem generate_invoice_no_spec :
    generate_invoice_no [] = "INV-0001" ∧
    generate_invoice_no seqRows = "INV-0010" ∧
    ∀ (rows : List InvoiceRow) (l : InvoiceRow) (n : ℕ),
      lastRow rows = some l → l.invoice_no ≠ "" →
      pyIntDigits? (lastDashPiece l.invoice_no.data) = some n →
      generate_invoice_no rows = "INV-" ++ zeroPad4 (n + 1) := by
  refine ⟨rfl, by decide, ?_⟩
  intro rows l n h1 h2 h3
  simp [generate_invoice_no, h1, h2, h3]

/-- C2 (witness): the general part of the amended claim at a concrete row. -/
theorem generate_invoice_no_spec_witness :
    generate_invoice_no [⟨7, "INV-0042"⟩] = "INV-" ++ zeroPad4 43 :=
  generate_invoice_no_spec.2.2 [⟨7, "INV-0042"⟩] ⟨7, "INV-0042"⟩ 42 (by decide)
    (by decide) (by decide)

/-- C8: invoice-number generation never raises.  When the latest invoice's
number does not parse, the result is the fallback `INV-` with the latest id
plus one (models.py lines 55-57); and on every database state the function
totalises to a well-formed `INV-` number. -/
theorem generate_invoice_no_fallback_total :
    (∀ (rows : List InvoiceRow) (l : InvoiceRow),
      lastRow rows = some l → l.invoice_no ≠ "" →
      pyIntDigits? (lastDashPiece l.invoice_no.data) = none →
      generate_invoice_no rows = "INV-" ++ zeroPad4 (l.id + 1)) ∧
    (∀ rows : List InvoiceRow, ∃ n : ℕ,
      generate_invoice_no rows = "INV-" ++ zeroPad4 n) := by
  constructor
  · intro rows l h1 h2 h3
    simp [generate_invoice_no, h1, h2, h3]
  · intro rows
    cases hl : lastRow rows with
    | none => exact ⟨1, by simp only [generate_invoice_no, hl]; decide⟩
    | some l =>
      by_cases he : l.invoice_no = ""
      · exact ⟨1, by simp only [generate_invoice_no, hl, if_pos he]; decide⟩
      · cases hp : pyIntDigits? (lastDashPiece l.invoice_no.data) with
        | some n =>
          exact ⟨n + 1, by simp only [generate_invoice_no, hl, if_neg he, hp]⟩
        | none =>
          exact ⟨l.id + 1, by simp only [generate_invoice_no, hl, if_neg he, hp]⟩

/-- C8 (witness): a malformed latest number `INV-XYZ` with id 3 falls back to
`INV-0004` without failing. -/
theorem generate_invoice_no_fallback_witness :
    generate_invoice_no [⟨3, "INV-XYZ"⟩] = "INV-" ++ zeroPad4 4 :=
  generate_invoice_no_fallback_total.1 [⟨3, "INV-XYZ"⟩] ⟨3, "INV-XYZ"⟩
    (by decide) (by decide) (by decide)

/-- C3 (counterexample): the claim says an unmatched customer name on edit
surfaces a client error and leaves the store unchanged; but `edit_invoice`
(app.py lines 310-314) silently ignores the unmatched name: on `exStore` with
form `exEditForm` (customer name `"Bob"`, unknown) the handler commits the
edit and redirects, changing the store. -/
theorem edit_unknown_customer_redirects :
    edit_invoice_post exStore 1 exEditForm =
      some (HttpResult.redirect "index", exStoreEdited) ∧
    exStoreEdited ≠ exStore := ⟨by decide, by decide⟩

/-- C3 (amended): on create, an unmatched customer name returns the 400
response `Customer not found` with the store untouched (app.py lines
140-143); on edit, an unmatched name is silently ignored — the edit proceeds
and the invoice keeps its previous `customer_id` (app.py lines 310-314). -/
theorem customer_lookup_mismatch_behavior :
    (∀ (st : Store) (f : InvForm),
      st.customers.find? (fun c => f.customer_name == some c.name) = none →
      new_invoice_post st f =
        some (HttpResult.clientError 400 "Customer not found", st)) ∧
    (∀ (st : Store) (invId : ℕ) (f : InvForm) (r : InvoiceRec) (st2 : Store),
      st.invoices.find? (fun i => i.id == invId) = some r →
      st.customers.find? (fun c => f.customer_name == some c.name) = none →
      edit_invoice_post st invId f = some (HttpResult.redirect "index", st2) →
      ∀ i ∈ st2.invoices, i.id = invId → i.customer_id = r.customer_id) := by
  constructor
  · intro st f h
    simp [new_invoice_post, h]
  · intro st invId f r st2 h1 h2 h3 i hi hid
    simp only [edit_invoice_post, h1, h2] at h3
    cases hb : buildItems invId true f.item_dates f.awb_nos f.destinations
        f.weights f.amounts with
    | none => rw [hb] at h3; exact Option.noConfusion h3
    | some its =>
      rw [hb] at h3
      simp only [Option.some.injEq, Prod.mk.injEq, true_and] at h3
      subst h3
      simp only [List.mem_map] at hi
      obtain ⟨j, hj, hji⟩ := hi
      by_cases hjid : (j.id == invId) = true
      · rw [if_pos hjid] at hji
        subst hji
        rfl
      · rw [if_neg hjid] at hji
        subst hji
        simp only [beq_iff_eq] at hjid
        exact absurd hid hjid

/-- C3 (witness): the amended claim at the concrete edit scenario. -/
theorem customer_lookup_mismatch_witness :
    new_invoice_post exStore exEditForm =
      some (HttpResult.clientError 400 "Customer not found", exStore) ∧
    exInvoiceEdited.customer_id = exInvoice.customer_id := by
  constructor
  · exact customer_lookup_mismatch_behavior.1 exStore exEditForm (by decide)
  · exact customer_lookup_mismatch_behavior.2 exStore 1 exEditForm exInvoice
      exStoreEdited (by decide) (by decide) (by decide) exInvoiceEdited
      (by decide) (by decide)

/-- C9: deleting an invoice deletes all of its items — afterwards no item
references the deleted id — and the referential invariant (every item's
`invoice_id` refers to an existing invoice) is preserved. -/
theorem delete_invoice_no_orphans (st : Store) (invId : ℕ)
    (h : storeInvariant st) :
    (∀ it ∈ (delete_invoice st invId).2.items, it.invoice_id ≠ invId) ∧
    storeInvariant (delete_invoice st invId).2 := by
  unfold delete_invoice
  cases hf : st.invoices.find? (fun i => i.id == invId) with
  | none =>
    constructor
    · intro it hit hcon
      obtain ⟨inv, hinv, hid⟩ := h it hit
      have hne := List.find?_eq_none.mp hf inv hinv
      rw [hcon] at hid
      simp [hid] at hne
    · exact h
  | some inv0 =>
    constructor
    · intro it hit hcon
      simp only [List.mem_filter] at hit
      rw [hcon] at hit
      simp at hit
    · intro it hit
      simp only [List.mem_filter] at hit
      obtain ⟨hin, hne⟩ := hit
      obtain ⟨inv, hinv, hid⟩ := h it hin
      refine ⟨inv, List.mem_filter.mpr ⟨hinv, ?_⟩, hid⟩
      simp only [Bool.not_eq_eq_eq_not, Bool.not_true, beq_eq_false_iff_ne] at hne ⊢
      rw [hid]
      exact hne

/-- C9 (witness): deleting invoice 1 from the two-invoice store leaves no
item referencing it and keeps the invariant. -/
theorem delete_invoice_no_orphans_witness :
    (∀ it ∈ (delete_invoice exStoreDel 1).2.items, it.invoice_id ≠ 1) ∧
    storeInvariant (delete_invoice exStoreDel 1).2 :=
  delete_invoice_no_orphans exStoreDel 1 (by unfold storeInvariant; decide)

/-- C4: whenever the calculation succeeds, the returned bill amount is the
ceiling of `tax_base` plus the sum of the three tax buckets, applied once: an
integer at least the unrounded tax-inclusive total and strictly less than one
unit above it. -/
theorem calc_bill_ceiling (amounts : List (Option ℚ)) (inv : PyInvoice)
    (r : RawTotals) (h : calcRaw amounts inv = some r) :
    ∃ t, calculate_invoice amounts inv = some t ∧
      t.bill_amount = ⌈r.tax_base + r.igst + r.cgst + r.sgst⌉ ∧
      r.tax_base + r.igst + r.cgst + r.sgst ≤ (t.bill_amount : ℚ) ∧
      ((t.bill_amount : ℚ)) < r.tax_base + r.igst + r.cgst + r.sgst + 1 := by
  have hb := calcRaw_bill amounts inv r h
  have hc : calculate_invoice amounts inv =
      some { subtotal := pyRound2 r.subtotal,
             fuel_charge := pyRound2 r.fuel_charge, igst := pyRound2 r.igst,
             cgst := pyRound2 r.cgst, sgst := pyRound2 r.sgst,
             igst_rate := r.igst_rate, sgst_rate := r.sgst_rate,
             cgst_rate := r.cgst_rate, bill_amount := ratCeil r.bill_amount } := by
    unfold calculate_invoice
    rw [h]
    rfl
  refine ⟨_, hc, ?_, ?_, ?_⟩
  · show ratCeil r.bill_amount = ⌈r.tax_base + r.igst + r.cgst + r.sgst⌉
    rw [ratCeil_eq, hb]
  · show r.tax_base + r.igst + r.cgst + r.sgst ≤ ((ratCeil r.bill_amount : ℤ) : ℚ)
    rw [ratCeil_eq, ← hb]
    exact Int.le_ceil r.bill_amount
  · show ((ratCeil r.bill_amount : ℤ) : ℚ) < r.tax_base + r.igst + r.cgst + r.sgst + 1
    rw [ratCeil_eq, ← hb]
    exact Int.ceil_lt_add_one r.bill_amount

/-- C4 (witness): the ceiling property at a concrete zero-tax invoice. -/
theorem calc_bill_ceiling_witness :
    ∃ t, calculate_invoice [some 100] invNA = some t ∧
      t.bill_amount = ⌈rNA.tax_base + rNA.igst + rNA.cgst + rNA.sgst⌉ ∧
      rNA.tax_base + rNA.igst + rNA.cgst + rNA.sgst ≤ (t.bill_amount : ℚ) ∧
      ((t.bill_amount : ℚ)) < rNA.tax_base + rNA.igst + rNA.cgst + rNA.sgst + 1 :=
  calc_bill_ceiling [some 100] invNA rNA (by decide)

/-- C5: the specification's worked example.  On amounts `[100.00, 250.50]`,
fuel 5, additional charges 20, regime `"IGST"`, rate 18, the calculator
returns subtotal `350.50`, fuel charge `17.53` and bill amount `458`.  The
exact unrounded tax-inclusive sum is `388.025 + 69.8445 = 457.8695` (the
spec's parenthetical `388.03 + 69.8454` uses display-rounded intermediates);
both ceilings are 458. -/
theorem calc_example_values :
    calculate_invoice [some 100, some 250.5] invExample =
      some { subtotal := 350.5, fuel_charge := 17.53, igst := 69.84, cgst := 0,
             sgst := 0, igst_rate := 18, cgst_rate := 0, sgst_rate := 0,
             bill_amount := 458 } ∧
    calcRaw [some 100, some 250.5] invExample = some rExample ∧
    rExample.tax_base + rExample.igst + rExample.cgst + rExample.sgst =
      457.8695 ∧
    ratCeil 457.8695 = 458 ∧
    ratCeil ((388.03 : ℚ) + 69.8454) = 458 :=
  ⟨by decide, by decide, by decide, by decide, by decide⟩

/-- C6: in the split (intra-state) regime — any selector other than `"IGST"`
and `"NA"` — the two split buckets are each `tax_base * (rate/2) / 100`, the
single bucket is zero, and their sum equals the single bucket the calculator
produces at the same rate on the same tax base under `"IGST"`. -/
theorem calc_intra_matches_inter (amounts : List (Option ℚ)) (inv : PyInvoice)
    (r r2 : RawTotals)
    (h1 : inv.gst_type ≠ some "IGST") (h2 : inv.gst_type ≠ some "NA")
    (h : calcRaw amounts inv = some r)
    (hI : calcRaw amounts { inv with gst_type := some "IGST" } = some r2) :
    r.cgst = r.tax_base * ((((inv.gst_rate.getD 0 : ℤ) : ℚ) / 2) / 100) ∧
    r.sgst = r.tax_base * ((((inv.gst_rate.getD 0 : ℤ) : ℚ) / 2) / 100) ∧
    r.igst = 0 ∧
    r2.tax_base = r.tax_base ∧
    r.cgst + r.sgst = r2.igst := by
  cases hs : sumFloats amounts with
  | none => simp [calcRaw, hs] at h
  | some subtotal =>
    cases hf : inv.fuel_percentage with
    | none => simp [calcRaw, hs, hf] at h
    | some fp =>
      simp only [calcRaw, hs, hf] at h hI
      rw [if_neg h1, if_neg h2] at h
      simp only [if_true] at hI
      simp only [Option.some.injEq] at h hI
      subst h
      subst hI
      refine ⟨rfl, rfl, rfl, rfl, ?_⟩
      dsimp only []
      ring

/-- C6 (witness): amounts `[100]`, rate 5, selector `"GST"` versus `"IGST"`:
split buckets `2.5` each, summing to the single bucket `5`. -/
theorem calc_intra_matches_inter_witness :
    rGstSplit.cgst =
      rGstSplit.tax_base * ((((invGstSplit.gst_rate.getD 0 : ℤ) : ℚ) / 2) / 100) ∧
    rGstSplit.sgst =
      rGstSplit.tax_base * ((((invGstSplit.gst_rate.getD 0 : ℤ) : ℚ) / 2) / 100) ∧
    rGstSplit.igst = 0 ∧
    rGstInter.tax_base = rGstSplit.tax_base ∧
    rGstSplit.cgst + rGstSplit.sgst = rGstInter.igst :=
  calc_intra_matches_inter [some 100] invGstSplit rGstSplit rGstInter
    (by decide) (by decide) (by decide) (by decide)

/-- C7: in the `"IGST"` (inter-state) regime the single bucket is
`tax_base * rate / 100` with effective rate the full rate, and the two split
buckets and their effective rates are zero. -/
theorem calc_igst_regime (amounts : List (Option ℚ)) (inv : PyInvoice)
    (r : RawTotals) (hty : inv.gst_type = some "IGST")
    (h : calcRaw amounts inv = some r) :
    r.igst = r.tax_base * (((inv.gst_rate.getD 0 : ℤ) : ℚ) / 100) ∧
    r.igst_rate = inv.gst_rate.getD 0 ∧
    r.cgst = 0 ∧ r.sgst = 0 ∧ r.cgst_rate = 0 ∧ r.sgst_rate = 0 := by
  cases hs : sumFloats amounts with
  | none => simp [calcRaw, hs] at h
  | some subtotal =>
    cases hf : inv.fuel_percentage with
    | none => simp [calcRaw, hs, hf] at h
    | some fp =>
      simp only [calcRaw, hs, hf] at h
      rw [if_pos hty] at h
      simp only [Option.some.injEq] at h
      subst h
      exact ⟨rfl, rfl, rfl, rfl, rfl, rfl⟩

/-- C7 (witness): the inter-state regime property at the worked example. -/
theorem calc_igst_regime_witness :
    rExample.igst = rExample.tax_base * (((invExample.gst_rate.getD 0 : ℤ) : ℚ) / 100) ∧
    rExample.igst_rate = invExample.gst_rate.getD 0 ∧
    rExample.cgst = 0 ∧ rExample.sgst = 0 ∧ rExample.cgst_rate = 0 ∧
    rExample.sgst_rate = 0 :=
  calc_igst_regime [some 100, some 250.5] invExample rExample (by decide)
    (by decide)

/-- C10: for every regime selector other than `"IGST"` and `"NA"` — absent,
empty, or any unrecognised string — the calculator applies the intra-state
split: both buckets `tax_base * (rate/2) / 100`, single bucket zero, and the
reported per-bucket effective rate an integer within one half of the exact
half-rate (Python's `round`, banker's at ties), not the exact half-rate. -/
theorem calc_default_regime (amounts : List (Option ℚ)) (inv : PyInvoice)
    (r : RawTotals)
    (h1 : inv.gst_type ≠ some "IGST") (h2 : inv.gst_type ≠ some "NA")
    (h : calcRaw amounts inv = some r) :
    r.cgst = r.tax_base * ((((inv.gst_rate.getD 0 : ℤ) : ℚ) / 2) / 100) ∧
    r.sgst = r.cgst ∧
    r.igst = 0 ∧
    r.igst_rate = 0 ∧
    r.cgst_rate = r.sgst_rate ∧
    |((r.cgst_rate : ℤ) : ℚ) - ((inv.gst_rate.getD 0 : ℤ) : ℚ) / 2| ≤ 1/2 := by
  cases hs : sumFloats amounts with
  | none => simp [calcRaw, hs] at h
  | some subtotal =>
    cases hf : inv.fuel_percentage with
    | none => simp [calcRaw, hs, hf] at h
    | some fp =>
      simp only [calcRaw, hs, hf] at h
      rw [if_neg h1, if_neg h2] at h
      simp only [Option.some.injEq] at h
      subst h
      exact ⟨rfl, rfl, rfl, rfl, rfl,
        pyRoundHalfEven_near (((inv.gst_rate.getD 0 : ℤ) : ℚ) / 2)⟩

/-- C10 (witness): an absent selector with odd rate 5 splits into buckets of
`2.5` with reported integer rate 2, within one half of the exact `2.5`. -/
theorem calc_default_regime_witness :
    rSplitAbsent.cgst =
      rSplitAbsent.tax_base *
        ((((invAbsentType.gst_rate.getD 0 : ℤ) : ℚ) / 2) / 100) ∧
    rSplitAbsent.sgst = rSplitAbsent.cgst ∧
    rSplitAbsent.igst = 0 ∧
    rSplitAbsent.igst_rate = 0 ∧
    rSplitAbsent.cgst_rate = rSplitAbsent.sgst_rate ∧
    |((rSplitAbsent.cgst_rate : ℤ) : ℚ) -
      ((invAbsentType.gst_rate.getD 0 : ℤ) : ℚ) / 2| ≤ 1/2 :=
  calc_default_regime [some 100] invAbsentType rSplitAbsent (by decide)
    (by decide) (by decide)
